import Mathlib

/-!
Verification of the vortexrotate file-rotation engine.

The Go sources are shallowly embedded: machine integers are `Nat`/`Int` with
explicit reduction modulo `2^64` (uint64) or `2^32` (uint32) where the source
can overflow; time stamps are `Int` milliseconds as produced by
`time.Time.UnixMilli`; fallible operations return `Except`; the file-system
effects of an operation are recorded as an explicit event trace.
-/

namespace VortexRotate

/-- Modulus of Go's uint64 (the type of `MixStrategy.maxSize` / `size`). -/
def U64 : Nat := 2 ^ 64

/-- Modulus of Go's uint32 (the type of `Rotator.counter`). -/
def U32 : Nat := 2 ^ 32

/-- DefaultMaxSize from const.go: 100 MiB. -/
def DefaultMaxSize : Nat := 1024 * 1024 * 100

/-- Compression type constants from the compression source file. -/
def CompressTypeUnknown : Nat := 0

def CompressTypeGzip : Nat := 1

def CompressTypeZstd : Nat := 2

def CompressTypeSnappy : Nat := 3

/-- RotateInterval from rotate_strategy.go is `time.Millisecond * 100`, i.e. the
`time.Duration` value 100000000 (nanoseconds).  The cron callback compares
`time.Duration(time.Now().UnixMilli()-s.lastTime) < RotateInterval`: the
left-hand side converts a difference of *milliseconds* directly into a
`time.Duration` (a count of *nanoseconds*), so numerically the comparison is
`(nowMs - lastMs) < 100000000`. -/
def RotateIntervalNanos : Int := 100000000

/-- Floor of the base-2 logarithm, by structural recursion on a fuel bound
sufficient for every value this development rounds (all below 2^200). -/
def floorLog2Aux : Nat → Nat → Nat
  | 0, _ => 0
  | fuel + 1, n => if n < 2 then 0 else floorLog2Aux fuel (n / 2) + 1

/-- Floor of the base-2 logarithm of a positive natural number. -/
def floorLog2 (n : Nat) : Nat := floorLog2Aux 200 n

/-- Round n to a multiple of 2^shift with ties to even, returning the
quotient (the rounded significand). -/
def roundNearestEven (n shift : Nat) : Nat :=
  if shift = 0 then n
  else
    let q := n / 2 ^ shift
    let r := n % 2 ^ shift
    let half := 2 ^ (shift - 1)
    if r < half then q
    else if half < r then q + 1
    else if q % 2 = 0 then q else q + 1

/-- The binary64 value nearest to the natural number n, rounding half to even
as Go's float64(uint64)/float64(int64) conversions round: exact below 2^53,
and an integer for every n in uint64 range (whose magnitudes keep the value
normal and far from overflow). -/
def fl64Nat (n : Nat) : Nat :=
  if n < 2 ^ 53 then n
  else
    let shift := floorLog2 n - 52
    roundNearestEven n shift * 2 ^ shift

/-- The significand of the binary64 constant 0.8 (RotateSizeThreshold): the
binary64 value nearest to 0.8 is 3602879701896397 * 2^-52. -/
def rotateSizeThresholdNumer : Nat := 3602879701896397

/-- The binary64 product float64(maxSize) * 0.8: the exact product of the two
binary64 operands is the dyadic rational num * 2^-52 with
num = fl64Nat maxSize * rotateSizeThresholdNumer, and the hardware rounds it
to 53 significant bits, ties to even.  Returned scaled by 2^52, so it is a
natural number. -/
def thresholdTimes2Pow52 (maxSize : Nat) : Nat :=
  let num := fl64Nat maxSize * rotateSizeThresholdNumer
  if num < 2 ^ 53 then num
  else
    let shift := floorLog2 num - 52
    roundNearestEven num shift * 2 ^ shift

/-- The comparison `float64(size) < float64(maxSize) * RotateSizeThreshold`
(`RotateSizeThreshold = 0.8`) from rotate_strategy.go / rotate.go, evaluated
as IEEE binary64 evaluates it: both conversions round to nearest-even, the
product rounds to nearest-even, and the comparison of the two resulting
(finite) values is exact; scaling both sides by 2^52 turns it into a
comparison of natural numbers. -/
def sizeBelowThreshold (size maxSize : Nat) : Bool :=
  fl64Nat size * 2 ^ 52 < thresholdTimes2Pow52 maxSize

/-- State of MixStrategy (rotate_strategy.go): `maxSize` and `size` are uint64
values (kept `< U64`), `lastTime` is the int64 millisecond timestamp of the
last rotation (zero-initialised by the constructor). -/
structure MixStrategy where
  maxSize : Nat
  size : Nat
  lastTime : Int
deriving Repr, DecidableEq

/-- MixStrategy.ShouldRotate from rotate_strategy.go.  The lock acquisition is
modelled by the function being an atomic step on the strategy state; `nowMs`
stands for `time.Now().UnixMilli()`.  Go's `s.size+writeSize` is uint64
addition, hence the reduction modulo `U64`. -/
def MixStrategy.ShouldRotate (s : MixStrategy) (writeSize : Nat) (nowMs : Int) :
    Bool × MixStrategy :=
  if (s.size + writeSize) % U64 < s.maxSize then
    (false, { s with size := (s.size + writeSize) % U64 })
  else
    (true, { s with size := 0, lastTime := nowMs })

/-- Run a sequence of ShouldRotate calls (one per write), threading the
strategy state and collecting the returned booleans. -/
def MixStrategy.runShouldRotate (s : MixStrategy) (nowMs : Int) :
    List Nat → List Bool × MixStrategy
  | [] => ([], s)
  | w :: ws =>
    let p := s.ShouldRotate w nowMs
    let q := p.2.runShouldRotate nowMs ws
    (p.1 :: q.1, q.2)

/-- One firing of the cron callback registered by MixStrategy.asyncWorker
(rotate_strategy.go).  The callback skips the tick (returning the state
unchanged and attempting no notification) iff
`time.Duration(nowMs - lastTime) < RotateInterval` and
`float64(size) < float64(maxSize)*RotateSizeThreshold`; otherwise it resets
`size` to 0, sets `lastTime` to now, and attempts a send on the notification
channel (the returned boolean records whether a send was attempted; the
bounded one-second wait and the drop on timeout are real-time behaviour of the
attempt itself and are not part of the state transition). -/
def MixStrategy.tick (s : MixStrategy) (nowMs : Int) : MixStrategy × Bool :=
  if nowMs - s.lastTime < RotateIntervalNanos ∧ sizeBelowThreshold s.size s.maxSize then
    (s, false)
  else
    ({ s with size := 0, lastTime := nowMs }, true)

/-- Error values from errorx/errorx.go and the I/O errors surfaced by
rotate.go (`os.ErrClosed` for a nil handle, open/compress failures). -/
inductive RErr
  | rotateClosed
  | fileClosed
  | filenameInvalid
  | compressTypeInvalid
  | gzipLevelInvalid
  | ioOpenFailed
  | compressFailed
deriving Repr, DecidableEq

/-- File-system effects performed by the Rotator, recorded as a trace.
The embedding never emits `removeFile`: no code path in rotate.go or the
compression source calls a file-deletion primitive. -/
inductive Effect
  | closeFile (name : String)
  | compressFile (src dst : String)
  | openFile (name : String)
  | writeBytes (name : String) (n : Nat)
  | removeFile (name : String)
deriving Repr, DecidableEq

/-- An `os.File` handle as the Rotator observes it: its path, whether Close
was called on it, and how many times Close was called on it. -/
structure FileHandle where
  name : String
  closed : Bool
  closeCount : Nat
deriving Repr, DecidableEq

/-- Observable configuration of the compressor stored in `r.cpr.cs`
(constructed by NewGzip / NewZstd / NewSnappy): the algorithm and the level it
was constructed with (0 for snappy, which takes none). -/
structure CompressorCfg where
  algo : Nat
  level : Int
deriving Repr, DecidableEq

/-- The Rotator state (rotate.go).  `f` is the active file handle (`none`
models a nil `*os.File`), `sig` the atomic closed flag (0/1), `counter` the
uint32 rotation counter (kept `< U32`), and the `cpr` struct is flattened into
`cprCompress` / `cprType` / `cprCs`.  The write lock is modelled by every
operation being an atomic step on this state. -/
structure Rotator where
  dir : String
  filename : String
  ext : String
  f : Option FileHandle
  stg : MixStrategy
  cprCompress : Bool
  cprType : Nat
  cprCs : Option CompressorCfg
  sig : Nat
  counter : Nat
  maxSize : Nat
deriving Repr, DecidableEq

/-- Zero-padded `%04d` formatting of a counter value (numbers of five or more
digits are printed unpadded, as in Go). -/
def padZero4 (n : Nat) : String :=
  let s := toString n
  if s.length < 4 then String.mk (List.replicate (4 - s.length) '0') ++ s else s

/-- The path produced by the template `"%s/%s/%s_%s_%04d.log"` in
Rotator.newFile, with `dateStr` standing for `time.Now().Format(Layout)`. -/
def mkLogPath (dir dateStr base : String) (c : Nat) : String :=
  dir ++ "/" ++ dateStr ++ "/" ++ base ++ "_" ++ dateStr ++ "_" ++ padZero4 c ++ ".log"

/-- Rotator.newFile from rotate.go: formats the path from the current counter
value, then increments the counter (uint32 `Add(1)`, hence the modulus). -/
def Rotator.newFile (r : Rotator) (dateStr : String) : String × Rotator :=
  (mkLogPath r.dir dateStr r.filename r.counter,
   { r with counter := (r.counter + 1) % U32 })

/-- The extension mapping of the compression source file (`CompressFn`;
rotate.go invokes it through its unexported spelling): gzip appends ".gz",
zstd ".zst", snappy ".snappy". -/
def compressFn (fn : String) (tp : Nat) : String :=
  if tp = CompressTypeGzip then fn ++ ".gz"
  else if tp = CompressTypeZstd then fn ++ ".zst"
  else if tp = CompressTypeSnappy then fn ++ ".snappy"
  else ""

/-- Rotator.rotate from rotate.go: close the active file; if compression is
enabled, run `cps` on the just-closed file's path (writing the compressed
sibling `compressFn oldPath cprType`; `cpsOk` says whether that step
succeeds); derive a fresh name with newFile and open it (`openOk` says
whether the open succeeds); only on success replace the handle.  On a `cps`
failure the function returns before newFile is called, so the counter is not
incremented; on an open failure the counter was already incremented and `f`
keeps pointing at the old, closed handle. -/
def Rotator.rotate (r : Rotator) (dateStr : String) (cpsOk openOk : Bool) :
    Except RErr Unit × Rotator × List Effect :=
  match r.f with
  | none =>
    (Except.error RErr.fileClosed, r, [])
  | some h =>
    let r1 : Rotator :=
      { r with f := some { h with closed := true, closeCount := h.closeCount + 1 } }
    if r1.cprCompress && !cpsOk then
      (Except.error RErr.compressFailed, r1, [Effect.closeFile h.name])
    else
      let evCps : List Effect :=
        if r1.cprCompress then
          [Effect.compressFile h.name (compressFn h.name r1.cprType)]
        else []
      let nf := r1.newFile dateStr
      if openOk then
        (Except.ok (),
         { nf.2 with f := some { name := nf.1, closed := false, closeCount := 0 } },
         Effect.closeFile h.name :: evCps ++ [Effect.openFile nf.1])
      else
        (Except.error RErr.ioOpenFailed, nf.2, Effect.closeFile h.name :: evCps)

/-- Rotator.Write from rotate.go: reject with ErrRotateClosed if the closed
flag is set; reject with os.ErrClosed if the handle is nil; otherwise consult
ShouldRotate (which mutates the strategy state either way), rotate first if it
returned true, and append the payload (`p` bytes) to the active file. -/
def Rotator.Write (r : Rotator) (p : Nat) (nowMs : Int) (dateStr : String)
    (cpsOk openOk : Bool) : Except RErr Nat × Rotator × List Effect :=
  if r.sig = 1 then (Except.error RErr.rotateClosed, r, [])
  else
    match r.f with
    | none => (Except.error RErr.fileClosed, r, [])
    | some h =>
      let sr := r.stg.ShouldRotate p nowMs
      let r1 : Rotator := { r with stg := sr.2 }
      if sr.1 then
        match r1.rotate dateStr cpsOk openOk with
        | (Except.error e, r2, evs) => (Except.error e, r2, evs)
        | (Except.ok _, r2, evs) =>
          match r2.f with
          | some h2 => (Except.ok p, r2, evs ++ [Effect.writeBytes h2.name p])
          | none => (Except.error RErr.fileClosed, r2, evs)
      else (Except.ok p, r1, [Effect.writeBytes h.name p])

/-- Rotator.Close from rotate.go: store 1 into the closed flag; if the handle
is nil return; otherwise call Close on the handle.  The handle field is never
cleared. -/
def Rotator.Close (r : Rotator) : Rotator × List Effect :=
  let r1 : Rotator := { r with sig := 1 }
  match r1.f with
  | none => (r1, [])
  | some h =>
    ({ r1 with f := some { h with closed := true, closeCount := h.closeCount + 1 } },
     [Effect.closeFile h.name])

/-- One handling of a received (still-open) timer notification by
Rotator.asyncWork (rotate.go): stat the active file (`statOk`/`actualSize`
model `r.f.Stat()`); on a stat error skip; if the actual size is below
`RotateSizeThreshold * maxSize` skip (releasing the lock, discarding the
notification); otherwise call rotate. -/
def Rotator.asyncWorkStep (r : Rotator) (statOk : Bool) (actualSize : Nat)
    (dateStr : String) (cpsOk openOk : Bool) : Rotator × List Effect :=
  if !statOk then (r, [])
  else if sizeBelowThreshold actualSize r.maxSize then (r, [])
  else
    let res := r.rotate dateStr cpsOk openOk
    (res.2.1, res.2.2)

/-- The filename check at the top of newRotator (rotate.go): split on "." and
require exactly two components, failing with errorx.ErrFilename otherwise.
`strings.Split` with the one-character separator "." is the split of the
character sequence on '.', embedded here on the character list. -/
def splitFilename (filename : String) : Except RErr (String × String) :=
  match filename.toList.splitOn '.' with
  | [a, b] => Except.ok (String.mk a, String.mk b)
  | _ => Except.error RErr.filenameInvalid

/-- The zero-valued MixStrategy built by NewMixStrategy (size and lastTime
start at the Go zero values). -/
def defaultMixStrategy (maxSize : Nat) : MixStrategy :=
  { maxSize := maxSize, size := 0, lastTime := 0 }

/-- newRotator from rotate.go, restricted to its state-building steps: the
filename split, the field initialisation (sig 0, counter 1, DefaultMaxSize,
default MixStrategy), and the opening of the initial file via newFile.
`dateStr` stands for the construction-day date string; directory creation,
option application and the background goroutine are I/O and are not part of
the state. -/
def newRotator (dir filename dateStr : String) : Except RErr Rotator :=
  match splitFilename filename with
  | Except.error e => Except.error e
  | Except.ok be =>
    let r0 : Rotator :=
      { dir := dir, filename := be.1, ext := be.2, f := none,
        stg := defaultMixStrategy DefaultMaxSize, cprCompress := false,
        cprType := CompressTypeUnknown, cprCs := none, sig := 0, counter := 1,
        maxSize := DefaultMaxSize }
    let nf := r0.newFile dateStr
    Except.ok { nf.2 with f := some { name := nf.1, closed := false, closeCount := 0 } }

/-- gzip.DefaultCompression (compress/gzip). -/
def gzipDefaultCompression : Int := -1

/-- gzip.HuffmanOnly, the smallest level gzip.NewWriterLevel accepts. -/
def gzipHuffmanOnly : Int := -2

/-- gzip.BestCompression, the largest level gzip.NewWriterLevel accepts. -/
def gzipBestCompression : Int := 9

/-- gozstd.DefaultCompressionLevel (the external zstd library's default, 3). -/
def gozstdDefaultCompressionLevel : Int := 3

/-- The WithCompress option from rotate.go: set the compress flag, validate
the compression type, compute `compressLevel` from the variadic argument
(defaulting to gzip.DefaultCompression only for gzip, else the Go zero value
0), then construct the compressor: NewGzip with `compressLevel` (rejecting
levels gzip.NewWriterLevel rejects), NewZstd always with
gozstd.DefaultCompressionLevel, NewSnappy with no level. -/
def WithCompress (tp : Nat) (level : List Int) (r : Rotator) : Except RErr Rotator :=
  let r1 : Rotator := { r with cprCompress := true }
  if tp < CompressTypeGzip ∨ CompressTypeSnappy < tp then
    Except.error RErr.compressTypeInvalid
  else
    let r2 : Rotator := { r1 with cprType := tp }
    let compressLevel : Int :=
      match level with
      | l :: _ => l
      | [] => if tp = CompressTypeGzip then gzipDefaultCompression else 0
    if tp = CompressTypeGzip then
      if compressLevel < gzipHuffmanOnly ∨ gzipBestCompression < compressLevel then
        Except.error RErr.gzipLevelInvalid
      else
        Except.ok { r2 with cprCs := some { algo := CompressTypeGzip, level := compressLevel } }
    else if tp = CompressTypeZstd then
      Except.ok { r2 with cprCs := some { algo := CompressTypeZstd, level := gozstdDefaultCompressionLevel } }
    else
      Except.ok { r2 with cprCs := some { algo := CompressTypeSnappy, level := 0 } }

/-- Iterate successful rotations (compression and open both succeeding). -/
def Rotator.iterRotate (dateStr : String) : Rotator → Nat → Rotator
  | r, 0 => r
  | r, n + 1 => Rotator.iterRotate dateStr (r.rotate dateStr true true).2.1 n

/-- A concrete open rotator used as a witness input (no compression). -/
def rEx : Rotator :=
  { dir := "d", filename := "app", ext := "log",
    f := some { name := "d/x/app_x_0001.log", closed := false, closeCount := 0 },
    stg := ⟨100, 0, 0⟩, cprCompress := false, cprType := CompressTypeUnknown,
    cprCs := none, sig := 0, counter := 2, maxSize := 100 }

/-- A concrete open rotator with gzip compression enabled, used as a witness
input. -/
def rEx2 : Rotator :=
  { dir := "d", filename := "app", ext := "log",
    f := some { name := "d/x/app_x_0003.log", closed := false, closeCount := 0 },
    stg := ⟨100, 0, 0⟩, cprCompress := true, cprType := CompressTypeGzip,
    cprCs := some { algo := CompressTypeGzip, level := -1 }, sig := 0,
    counter := 4, maxSize := 100 }

/-- The handle held by `rEx2`. -/
def hEx2 : FileHandle := { name := "d/x/app_x_0003.log", closed := false, closeCount := 0 }

/-- A concrete open rotator with maxSize = 5629499534213124, a capacity at
which the binary64 product float64(maxSize) * 0.8 rounds downward across an
integer boundary. -/
def rEx5 : Rotator :=
  { dir := "d", filename := "app", ext := "log",
    f := some { name := "d/x/app_x_0004.log", closed := false, closeCount := 0 },
    stg := ⟨5629499534213124, 0, 0⟩, cprCompress := false,
    cprType := CompressTypeUnknown, cprCs := none, sig := 0, counter := 5,
    maxSize := 5629499534213124 }

/-- The rotator state newRotator builds for base filename "app.log": base
"app", extension "log", the initial file opened under sequence number 1, and
the counter already advanced to 2 by that construction-time newFile call. -/
def initialRotator (dir d : String) : Rotator :=
  { dir := dir, filename := "app", ext := "log",
    f := some { name := mkLogPath dir d "app" 1, closed := false, closeCount := 0 },
    stg := defaultMixStrategy DefaultMaxSize, cprCompress := false,
    cprType := CompressTypeUnknown, cprCs := none, sig := 0,
    counter := 2, maxSize := DefaultMaxSize }

/-- The event trace of the first rotate() performed on a rotator freshly
constructed with base filename "app.log" in directory "d" on 20250101 (used
to exhibit the sequence number of the first rotation). -/
def firstRotationEvents : List Effect :=
  match newRotator "d" "app.log" "20250101" with
  | Except.ok r0 => (r0.rotate "20250101" true true).2.2
  | Except.error _ => []

/-- The compressor configuration produced by passing an explicit level 5 to
WithCompress with the zstd compression type (on `rEx`). -/
def zstdLevel5Result : Except RErr (Option CompressorCfg) :=
  match WithCompress CompressTypeZstd [5] rEx with
  | Except.ok r => Except.ok r.cprCs
  | Except.error e => Except.error e

section StrategyLemmas

/-- Helper for C1: running ShouldRotate over a list of writes whose partial
sums (relative to the starting accumulated size) all stay below `maxSize`
except that the grand total reaches it produces `false` on every write but the
last, `true` on the last, and leaves the accumulated size at 0. -/
theorem runShouldRotate_first_crossing (ws : List Nat) :
    ∀ (s : MixStrategy) (nowMs : Int), ws ≠ [] →
    s.size + ws.sum < U64 →
    (∀ k, k < ws.length → s.size + (ws.take k).sum < s.maxSize) →
    s.maxSize ≤ s.size + ws.sum →
    (s.runShouldRotate nowMs ws).1 = List.replicate (ws.length - 1) false ++ [true]
      ∧ (s.runShouldRotate nowMs ws).2.size = 0 := by
  induction ws with
  | nil => intro s nowMs hne; exact absurd rfl hne
  | cons w ws ih =>
    intro s nowMs _ hov hpre hsum
    cases ws with
    | nil =>
      have hmod : (s.size + w) % U64 = s.size + w := by
        apply Nat.mod_eq_of_lt
        simpa using hov
      have hge : ¬ (s.size + w) % U64 < s.maxSize := by
        rw [hmod]
        simp only [List.sum_cons, List.sum_nil, Nat.add_zero] at hsum
        omega
      constructor
      · simp [MixStrategy.runShouldRotate, MixStrategy.ShouldRotate, hge]
      · simp [MixStrategy.runShouldRotate, MixStrategy.ShouldRotate, hge]
    | cons w' ws' =>
      have hlt : s.size + w < s.maxSize := by
        have := hpre 1 (by simp)
        simpa using this
      have hmod : (s.size + w) % U64 = s.size + w := by
        apply Nat.mod_eq_of_lt
        have : w ≤ (w :: w' :: ws').sum := by
          simp [List.sum_cons]
        omega
      have hcond : (s.size + w) % U64 < s.maxSize := by rw [hmod]; exact hlt
      set s' : MixStrategy := { s with size := (s.size + w) % U64 } with hs'
      have hstep : s.ShouldRotate w nowMs = (false, s') := by
        simp [MixStrategy.ShouldRotate, hcond]
      have hsize' : s'.size = s.size + w := by rw [hs']; exact hmod
      have hmax' : s'.maxSize = s.maxSize := rfl
      have hrec := ih s' nowMs (by simp)
        (by
          rw [hsize']
          simp only [List.sum_cons] at hov ⊢
          omega)
        (by
          intro k hk
          have := hpre (k + 1) (by simpa using Nat.succ_lt_succ hk)
          rw [hsize', hmax']
          simpa [List.take_succ_cons, Nat.add_assoc] using this)
        (by
          rw [hsize', hmax']
          simp only [List.sum_cons] at hsum ⊢
          omega)
      have hunfold :
          (s.runShouldRotate nowMs (w :: w' :: ws')).1
            = false :: (s'.runShouldRotate nowMs (w' :: ws')).1
          ∧ (s.runShouldRotate nowMs (w :: w' :: ws')).2
            = (s'.runShouldRotate nowMs (w' :: ws')).2 := by
        constructor <;> simp [MixStrategy.runShouldRotate, hstep]
      refine ⟨?_, ?_⟩
      · rw [hunfold.1, hrec.1]
        simp [List.replicate_succ]
      · rw [hunfold.2]
        exact hrec.2

/-- C1: On a MixStrategy with accumulated size `size` and capacity `maxSize`,
`ShouldRotate writeSize` adds `writeSize` to the accumulated size and returns
`false` when `size + writeSize < maxSize`, and otherwise resets the
accumulated size to 0, sets the last-rotation time to now, and returns `true`
(stated under the no-overflow side condition `size + writeSize < 2^64`, under
which the uint64 addition in the source equals the mathematical sum).
Consequently, starting from accumulated size 0, a sequence of writes whose
cumulative size first reaches or exceeds `maxSize` at its final write yields
exactly one `true` (at that final call, all earlier calls returning `false`),
and the accumulated size after the `true` result is 0, so the following call
starts accounting from 0. -/
theorem shouldRotate_spec (s : MixStrategy) (w : Nat) (nowMs nowMs' : Int)
    (s0 : MixStrategy) (ws : List Nat)
    (hw : s.size + w < U64)
    (h0 : s0.size = 0) (hne : ws ≠ []) (hov : ws.sum < U64)
    (hpre : ∀ k, k < ws.length → (ws.take k).sum < s0.maxSize)
    (hsum : s0.maxSize ≤ ws.sum) :
    s.ShouldRotate w nowMs =
      (if s.size + w < s.maxSize then (false, { s with size := s.size + w })
       else (true, { s with size := 0, lastTime := nowMs }))
    ∧ (s0.runShouldRotate nowMs' ws).1 = List.replicate (ws.length - 1) false ++ [true]
    ∧ (s0.runShouldRotate nowMs' ws).2.size = 0 := by
  have hmod : (s.size + w) % U64 = s.size + w := Nat.mod_eq_of_lt hw
  have hmain := runShouldRotate_first_crossing ws s0 nowMs' hne
    (by rw [h0]; simpa using hov)
    (by intro k hk; rw [h0]; simpa using hpre k hk)
    (by rw [h0]; simpa using hsum)
  refine ⟨?_, hmain.1, hmain.2⟩
  by_cases hlt : s.size + w < s.maxSize
  · rw [if_pos hlt]
    simp [MixStrategy.ShouldRotate, hmod, hlt]
  · rw [if_neg hlt]
    simp [MixStrategy.ShouldRotate, hmod, hlt]

/-- Witness for C1: concrete instance with `maxSize = 10`, a step at
accumulated size 3 with write size 2, and the write sequence [4, 3, 5] whose
cumulative size first reaches 10 at the third write. -/
theorem shouldRotate_spec_witness :
    (MixStrategy.ShouldRotate ⟨10, 3, 0⟩ 2 5 =
      (if 3 + 2 < 10 then (false, ⟨10, 3 + 2, 0⟩)
       else (true, ⟨10, 0, 5⟩)))
    ∧ (MixStrategy.runShouldRotate ⟨10, 0, 0⟩ 7 [4, 3, 5]).1
        = List.replicate ([4, 3, 5].length - 1) false ++ [true]
    ∧ (MixStrategy.runShouldRotate ⟨10, 0, 0⟩ 7 [4, 3, 5]).2.size = 0 :=
  shouldRotate_spec ⟨10, 3, 0⟩ 2 5 7 ⟨10, 0, 0⟩ [4, 3, 5]
    (by decide) rfl (by decide) (by decide) (by decide) (by decide)

/-- Helper: a ShouldRotate call that returned `false` took the accumulate
branch: the (wrapped) sum was below `maxSize` and the state recorded it. -/
theorem shouldRotate_false_elim (s : MixStrategy) (w : Nat) (t : Int)
    (h : (s.ShouldRotate w t).1 = false) :
    (s.size + w) % U64 < s.maxSize
    ∧ (s.ShouldRotate w t).2 = { s with size := (s.size + w) % U64 } := by
  by_cases hc : (s.size + w) % U64 < s.maxSize
  · exact ⟨hc, by simp [MixStrategy.ShouldRotate, hc]⟩
  · exfalso
    simp [MixStrategy.ShouldRotate, hc] at h

/-- C10: the check-and-increment in ShouldRotate is lock-protected, which the
embedding models by sequentialising any two concurrent calls; in either
serialisation order, if the two write sizes added to the same base accumulated
value reach or exceed `maxSize`, it is impossible for both calls to return
`false` (stated under the no-overflow side condition on the uint64 sums). -/
theorem shouldRotate_no_double_false (s : MixStrategy) (w1 w2 : Nat) (t1 t2 : Int)
    (hov : s.size + w1 + w2 < U64)
    (hsum : s.maxSize ≤ s.size + w1 + w2) :
    (¬((s.ShouldRotate w1 t1).1 = false
        ∧ ((s.ShouldRotate w1 t1).2.ShouldRotate w2 t2).1 = false))
    ∧ (¬((s.ShouldRotate w2 t2).1 = false
        ∧ ((s.ShouldRotate w2 t2).2.ShouldRotate w1 t1).1 = false)) := by
  constructor
  · rintro ⟨h1, h2⟩
    obtain ⟨hc1, hs1⟩ := shouldRotate_false_elim s w1 t1 h1
    rw [hs1] at h2
    obtain ⟨hc2, -⟩ := shouldRotate_false_elim _ w2 t2 h2
    simp only at hc2
    have hm1 : (s.size + w1) % U64 = s.size + w1 := Nat.mod_eq_of_lt (by omega)
    rw [hm1, Nat.mod_eq_of_lt hov] at hc2
    omega
  · rintro ⟨h1, h2⟩
    obtain ⟨hc1, hs1⟩ := shouldRotate_false_elim s w2 t2 h1
    rw [hs1] at h2
    obtain ⟨hc2, -⟩ := shouldRotate_false_elim _ w1 t1 h2
    simp only at hc2
    have hm1 : (s.size + w2) % U64 = s.size + w2 := Nat.mod_eq_of_lt (by omega)
    rw [hm1, Nat.mod_eq_of_lt (show s.size + w2 + w1 < U64 by omega)] at hc2
    omega

/-- Witness for C10: `maxSize = 10`, base accumulated size 5, concurrent
writes of sizes 3 and 4 (5 + 3 + 4 = 12 ≥ 10). -/
theorem shouldRotate_no_double_false_witness :
    (¬((MixStrategy.ShouldRotate ⟨10, 5, 0⟩ 3 1).1 = false
        ∧ ((MixStrategy.ShouldRotate ⟨10, 5, 0⟩ 3 1).2.ShouldRotate 4 2).1 = false))
    ∧ (¬((MixStrategy.ShouldRotate ⟨10, 5, 0⟩ 4 2).1 = false
        ∧ ((MixStrategy.ShouldRotate ⟨10, 5, 0⟩ 4 2).2.ShouldRotate 3 1).1 = false)) :=
  shouldRotate_no_double_false ⟨10, 5, 0⟩ 3 4 1 2 (by decide) (by decide)

/-- C4, code-bug demonstration.  The claim: a tick with elapsed time since the
last rotation at least RotateInterval (100ms) must reset the accumulated size,
set the last-rotation time to now, and attempt a notification.  The code
converts the millisecond difference directly to `time.Duration` (nanoseconds),
so at `lastTime = 0`, `now = 200` (elapsed 200ms ≥ 100ms) with accumulated
size 0 and `maxSize = 1000` it compares 200ns < 100ms, hits the skip branch,
and produces no notification and no state change — contradicting the claim.
The size-override branch does behave as claimed: the same tick with
accumulated size 800 (≥ 80% of 1000) resets the state and attempts the
notification. -/
theorem tick_millis_as_nanos_bug :
    MixStrategy.tick ⟨1000, 0, 0⟩ 200 = (⟨1000, 0, 0⟩, false)
    ∧ MixStrategy.tick ⟨1000, 800, 0⟩ 200 = (⟨1000, 0, 200⟩, true) := by
  constructor <;> decide

end StrategyLemmas

section RotatorLemmas

/-- C2: every Write call made after Close has returned yields the
ErrRotateClosed error and performs no file mutation: the returned state is
exactly the post-Close state (so the active file is not written to, no
rotation occurs and the rotation counter is unchanged) and the effect trace is
empty. -/
theorem write_after_close (r : Rotator) (p : Nat) (nowMs : Int) (d : String)
    (c o : Bool) :
    r.Close.1.Write p nowMs d c o = (Except.error RErr.rotateClosed, r.Close.1, [])
    ∧ r.Close.1.counter = r.counter := by
  have hsig : r.Close.1.sig = 1 := by
    cases hf : r.f <;> simp [Rotator.Close, hf]
  constructor
  · simp [Rotator.Write, hsig]
  · cases hf : r.f <;> simp [Rotator.Close, hf]

/-- C6: constructing a Rotator with base filename "app.log" succeeds and
splits it into base "app" and extension "log"; a filename with no '.'
("applog") or more than one ("a.b.c") fails with errorx.ErrFilename and
returns no instance. -/
theorem newRotator_filename_validation :
    (∀ dir d, ∃ r, newRotator dir "app.log" d = Except.ok r
        ∧ r.filename = "app" ∧ r.ext = "log")
    ∧ (∀ dir d, newRotator dir "applog" d = Except.error RErr.filenameInvalid)
    ∧ (∀ dir d, newRotator dir "a.b.c" d = Except.error RErr.filenameInvalid) := by
  refine ⟨fun dir d => ⟨_, rfl, rfl, rfl⟩, fun dir d => rfl, fun dir d => rfl⟩

set_option maxRecDepth 100000 in
/-- C5 counterexample: at maxSize = 5629499534213124 the binary64 product
float64(maxSize) * 0.8 rounds to exactly 4503599627370499, while the exact
bound 0.8 * maxSize is 4503599627370499.2; at actual size 4503599627370499 —
strictly below 0.8 * maxSize — the comparison in the code is therefore false
and the reconciliation step rotates instead of discarding the notification,
contradicting the claim that rotate() is called only if the size is at least
RotateSizeThreshold (0.8) times maxSize. -/
theorem asyncWork_threshold_counterexample :
    5 * 4503599627370499 < 4 * 5629499534213124
    ∧ sizeBelowThreshold 4503599627370499 5629499534213124 = false
    ∧ (rEx5.asyncWorkStep true 4503599627370499 "x" true true).2
        = [Effect.closeFile "d/x/app_x_0004.log",
           Effect.openFile "d/x/app_x_0005.log"] := by
  refine ⟨by norm_num, by decide, by decide⟩

/-- C5 amended: when the background reconciliation task receives a timer
notification and the stat of the active file succeeds, it reads the file's
actual size and calls rotate() exactly when the binary64 comparison
float64(size) < float64(maxSize) * RotateSizeThreshold is false — a bound
that coincides with the exact 0.8 * maxSize threshold except where the
floating-point rounding of the product crosses an integer, where a size less
than one unit below 0.8 * maxSize can still trigger rotation; when the
comparison holds (and likewise on a stat error) the notification is
discarded with no rotation and no state change. -/
theorem asyncWork_revalidation (r : Rotator) (h : FileHandle) (sz : Nat)
    (d : String) (c o : Bool) (hf : r.f = some h) :
    (r.asyncWorkStep true sz d c o
      = if sizeBelowThreshold sz r.maxSize then (r, [])
        else ((r.rotate d c o).2.1, (r.rotate d c o).2.2))
    ∧ r.asyncWorkStep false sz d c o = (r, [])
    ∧ (r.asyncWorkStep true sz d c o).2.head?
        = (if sizeBelowThreshold sz r.maxSize then none
           else some (Effect.closeFile h.name)) := by
  refine ⟨?_, rfl, ?_⟩
  · by_cases hb : sizeBelowThreshold sz r.maxSize <;>
      simp [Rotator.asyncWorkStep, hb]
  · by_cases hb : sizeBelowThreshold sz r.maxSize
    · simp [Rotator.asyncWorkStep, hb]
    · cases hcpr : r.cprCompress <;> cases hc : c <;> cases ho : o <;>
        simp [Rotator.asyncWorkStep, Rotator.rotate, hb, hf, hcpr, Rotator.newFile]

/-- Witness for C5 amended: `rEx` (maxSize 100) with actual size 0, which is
below the threshold, so the notification is discarded. -/
theorem asyncWork_revalidation_witness :
    rEx.f = some { name := "d/x/app_x_0001.log", closed := false, closeCount := 0 }
    ∧ ((rEx.asyncWorkStep true 0 "x" true true
        = if sizeBelowThreshold 0 rEx.maxSize then (rEx, [])
          else ((rEx.rotate "x" true true).2.1, (rEx.rotate "x" true true).2.2))
      ∧ rEx.asyncWorkStep false 0 "x" true true = (rEx, [])
      ∧ (rEx.asyncWorkStep true 0 "x" true true).2.head?
          = (if sizeBelowThreshold 0 rEx.maxSize then none
             else some (Effect.closeFile "d/x/app_x_0001.log"))) :=
  ⟨rfl, asyncWork_revalidation rEx
    { name := "d/x/app_x_0001.log", closed := false, closeCount := 0 }
    0 "x" true true rfl⟩

/-- C7: every rotate() call performs, in order, the close of the active file,
then (when compression is enabled) the compression of the just-closed file's
path into the sibling path obtained by appending the algorithm's extension,
then the open of a freshly derived name; the active handle is replaced only
on success (on an open failure it still holds the old, closed handle); no
rotate trace ever removes a file; and the extension mapping is ".gz", ".zst",
".snappy" for gzip, zstd, snappy respectively. -/
theorem rotate_order_spec (r : Rotator) (h : FileHandle) (d s : String)
    (c o : Bool) (nm : String) (hf : r.f = some h) :
    ((r.rotate d true true).2.2
      = Effect.closeFile h.name
          :: (if r.cprCompress then
                [Effect.compressFile h.name (compressFn h.name r.cprType)]
              else [])
          ++ [Effect.openFile (mkLogPath r.dir d r.filename r.counter)])
    ∧ (r.rotate d true true).1 = Except.ok ()
    ∧ (r.rotate d true true).2.1.f
        = some { name := mkLogPath r.dir d r.filename r.counter,
                 closed := false, closeCount := 0 }
    ∧ (r.rotate d c false).2.1.f
        = some { h with closed := true, closeCount := h.closeCount + 1 }
    ∧ Effect.removeFile nm ∉ (r.rotate d c o).2.2
    ∧ compressFn s CompressTypeGzip = s ++ ".gz"
    ∧ compressFn s CompressTypeZstd = s ++ ".zst"
    ∧ compressFn s CompressTypeSnappy = s ++ ".snappy" := by
  refine ⟨?_, ?_, ?_, ?_, ?_, rfl, rfl, rfl⟩
  · cases hc : r.cprCompress <;>
      simp [Rotator.rotate, hf, Rotator.newFile, hc]
  · cases hc : r.cprCompress <;>
      simp [Rotator.rotate, hf, Rotator.newFile, hc]
  · cases hc : r.cprCompress <;>
      simp [Rotator.rotate, hf, Rotator.newFile, hc]
  · cases hc : r.cprCompress <;> cases hcps : c <;>
      simp [Rotator.rotate, hf, Rotator.newFile, hc]
  · cases hc : r.cprCompress <;> cases hcps : c <;> cases ho : o <;>
      simp [Rotator.rotate, hf, Rotator.newFile, hc]

/-- Witness for C7: the compression-enabled rotator `rEx2` with its handle
`hEx2`, cps succeeding and the open of the new file failing. -/
theorem rotate_order_spec_witness :
    rEx2.f = some hEx2
    ∧ (((rEx2.rotate "20250101" true true).2.2
        = Effect.closeFile hEx2.name
            :: (if rEx2.cprCompress then
                  [Effect.compressFile hEx2.name (compressFn hEx2.name rEx2.cprType)]
                else [])
            ++ [Effect.openFile (mkLogPath rEx2.dir "20250101" rEx2.filename rEx2.counter)])
      ∧ (rEx2.rotate "20250101" true true).1 = Except.ok ()
      ∧ (rEx2.rotate "20250101" true true).2.1.f
          = some { name := mkLogPath rEx2.dir "20250101" rEx2.filename rEx2.counter,
                   closed := false, closeCount := 0 }
      ∧ (rEx2.rotate "20250101" true false).2.1.f
          = some { hEx2 with closed := true, closeCount := hEx2.closeCount + 1 }
      ∧ Effect.removeFile "z" ∉ (rEx2.rotate "20250101" true false).2.2
      ∧ compressFn "a" CompressTypeGzip = "a" ++ ".gz"
      ∧ compressFn "a" CompressTypeZstd = "a" ++ ".zst"
      ∧ compressFn "a" CompressTypeSnappy = "a" ++ ".snappy") :=
  ⟨rfl, rotate_order_spec rEx2 hEx2 "20250101" "a" true false "z" rfl⟩

/-- C8 counterexample: after the first Close the handle field still holds the
(now closed) handle — Close never clears it — so the second Close call finds
the handle present, passes the nil guard, and invokes Close on the handle a
second time: the second call emits another close of the same handle and the
handle's close count reaches 2, contradicting the claim that the second call
is a no-op on the handle. -/
theorem close_twice_counterexample :
    (rEx.Close.1.Close).2 = [Effect.closeFile "d/x/app_x_0001.log"]
    ∧ (rEx.Close.1.Close).1.f
        = some { name := "d/x/app_x_0001.log", closed := true, closeCount := 2 } := by
  constructor <;> rfl

/-- C8 amended: calling Close twice does not panic and subsequent writers
immediately see the Closed error, but the second call is not a no-op on the
handle: since the handle field is never cleared, the presence guard passes
again and Close is invoked on the handle once per call (twice in total); the
guard only protects the case where no handle is present. -/
theorem close_twice_amended (r : Rotator) (h : FileHandle) (p : Nat) (nowMs : Int)
    (d : String) (c o : Bool) (hf : r.f = some h) :
    (r.Close.1.Close).1.sig = 1
    ∧ (r.Close.1.Close).1.f
        = some { name := h.name, closed := true, closeCount := h.closeCount + 1 + 1 }
    ∧ (r.Close.1.Close).2 = [Effect.closeFile h.name]
    ∧ (r.Close.1.Close).1.Write p nowMs d c o
        = (Except.error RErr.rotateClosed, (r.Close.1.Close).1, []) := by
  have e1 : r.Close.1
      = { r with sig := 1,
                 f := some { name := h.name, closed := true, closeCount := h.closeCount + 1 } } := by
    simp [Rotator.Close, hf]
  have e2 : (r.Close.1.Close).1
      = { r with sig := 1,
                 f := some { name := h.name, closed := true, closeCount := h.closeCount + 1 + 1 } } := by
    rw [e1]; simp [Rotator.Close]
  have e3 : (r.Close.1.Close).2 = [Effect.closeFile h.name] := by
    rw [e1]; simp [Rotator.Close]
  have hsig : (r.Close.1.Close).1.sig = 1 := by rw [e2]
  refine ⟨hsig, by rw [e2], e3, ?_⟩
  simp [Rotator.Write, hsig]

/-- Witness for C8 amended: the concrete rotator `rEx`. -/
theorem close_twice_amended_witness :
    rEx.f = some { name := "d/x/app_x_0001.log", closed := false, closeCount := 0 }
    ∧ ((rEx.Close.1.Close).1.sig = 1
      ∧ (rEx.Close.1.Close).1.f
          = some { name := "d/x/app_x_0001.log", closed := true, closeCount := 0 + 1 + 1 }
      ∧ (rEx.Close.1.Close).2 = [Effect.closeFile "d/x/app_x_0001.log"]
      ∧ (rEx.Close.1.Close).1.Write 3 7 "20250101" true true
          = (Except.error RErr.rotateClosed, (rEx.Close.1.Close).1, [])) :=
  ⟨rfl, close_twice_amended rEx
    { name := "d/x/app_x_0001.log", closed := false, closeCount := 0 } 3 7 "20250101"
    true true rfl⟩

/-- Helper for C3: a successful rotate on a rotator without compression closes
the current handle, opens the file named from the current counter value, and
increments the counter by exactly one. -/
theorem rotate_step_plain (r : Rotator) (h : FileHandle) (d : String)
    (hf : r.f = some h) (hcpr : r.cprCompress = false) (hc : r.counter + 1 < U32) :
    (r.rotate d true true).2.1
      = { r with f := some { name := mkLogPath r.dir d r.filename r.counter,
                             closed := false, closeCount := 0 },
                 counter := r.counter + 1 }
    ∧ (r.rotate d true true).2.2
      = [Effect.closeFile h.name,
         Effect.openFile (mkLogPath r.dir d r.filename r.counter)] := by
  have hmod : (r.counter + 1) % U32 = r.counter + 1 := Nat.mod_eq_of_lt hc
  constructor <;> simp [Rotator.rotate, hf, hcpr, Rotator.newFile, hmod]

/-- Helper for C3: the counter/handle invariant carried across iterated
successful rotations of a compression-free rotator. -/
theorem iterRotate_invariant (d dir base : String) :
    ∀ (n : Nat) (r : Rotator) (k : Nat), k + n + 2 < U32 →
      r.counter = k + 2 →
      r.f = some { name := mkLogPath dir d base (k + 1), closed := false, closeCount := 0 } →
      r.cprCompress = false → r.dir = dir → r.filename = base →
      (Rotator.iterRotate d r n).counter = k + n + 2
      ∧ (Rotator.iterRotate d r n).f
          = some { name := mkLogPath dir d base (k + n + 1), closed := false, closeCount := 0 }
      ∧ (Rotator.iterRotate d r n).cprCompress = false
      ∧ (Rotator.iterRotate d r n).dir = dir
      ∧ (Rotator.iterRotate d r n).filename = base := by
  intro n
  induction n with
  | zero =>
    intro r k hb h1 h2 h3 h4 h5
    exact ⟨by simpa [Rotator.iterRotate] using h1,
      by simpa [Rotator.iterRotate] using h2,
      by simpa [Rotator.iterRotate] using h3,
      by simpa [Rotator.iterRotate] using h4,
      by simpa [Rotator.iterRotate] using h5⟩
  | succ n ih =>
    intro r k hb h1 h2 h3 h4 h5
    have hstep := rotate_step_plain r _ d h2 h3 (by omega)
    have hre : Rotator.iterRotate d r (n + 1)
        = Rotator.iterRotate d (r.rotate d true true).2.1 n := rfl
    have hnext := ih (r.rotate d true true).2.1 (k + 1) (by omega)
      (by rw [hstep.1]; simp [h1])
      (by rw [hstep.1]; simp [h1, h4, h5])
      (by rw [hstep.1]; simp [h3])
      (by rw [hstep.1]; simp [h4])
      (by rw [hstep.1]; simp [h5])
    rw [hre]
    refine ⟨by rw [hnext.1]; omega, ?_, hnext.2.2.1, hnext.2.2.2.1, hnext.2.2.2.2⟩
    rw [hnext.2.1]
    have : k + 1 + n + 1 = k + (n + 1) + 1 := by omega
    rw [this]

/-- C3 amended: every newFile() call formats
`<directory>/<date:yyyyMMdd>/<base>_<date>_<counter:%04d>.log` and then
increments the monotonic counter by exactly 1; the construction-time initial
file consumes sequence number 1 (the counter starts at 1 and newFile is
called once during construction), so for N consecutive rotations the derived
filenames' trailing sequence numbers are strictly increasing by 1 starting
from 2 for the first rotation: the n-th rotation (0-based) closes the file
numbered n+1 and opens the file numbered n+2, leaving the counter at n+3. -/
theorem newFile_counter_progression (dir d : String) (n : Nat) (hn : n + 3 < U32) :
    ∃ r0, newRotator dir "app.log" d = Except.ok r0
      ∧ r0.f = some { name := mkLogPath dir d "app" 1, closed := false, closeCount := 0 }
      ∧ r0.counter = 2
      ∧ ((r0.iterRotate d n).rotate d true true).2.2
          = [Effect.closeFile (mkLogPath dir d "app" (n + 1)),
             Effect.openFile (mkLogPath dir d "app" (n + 2))]
      ∧ ((r0.iterRotate d n).rotate d true true).2.1.counter = n + 3 := by
  have hinv := iterRotate_invariant d dir "app" n (initialRotator dir d)
    0 (by omega) rfl rfl rfl rfl rfl
  have hstep := rotate_step_plain _ _ d hinv.2.1 hinv.2.2.1
    (by rw [hinv.1]; omega)
  refine ⟨initialRotator dir d, rfl, rfl, rfl, ?_, ?_⟩
  · rw [hstep.2, hinv.2.2.2.1, hinv.2.2.2.2, hinv.1]
    norm_num
  · rw [hstep.1]
    simp only
    rw [hinv.1]
    omega

/-- Witness for C3 amended: directory "d", date 20250101, first rotation
(n = 0). -/
theorem newFile_counter_progression_witness :
    0 + 3 < U32
    ∧ (∃ r0, newRotator "d" "app.log" "20250101" = Except.ok r0
      ∧ r0.f = some { name := mkLogPath "d" "20250101" "app" 1,
                      closed := false, closeCount := 0 }
      ∧ r0.counter = 2
      ∧ ((r0.iterRotate "20250101" 0).rotate "20250101" true true).2.2
          = [Effect.closeFile (mkLogPath "d" "20250101" "app" (0 + 1)),
             Effect.openFile (mkLogPath "d" "20250101" "app" (0 + 2))]
      ∧ ((r0.iterRotate "20250101" 0).rotate "20250101" true true).2.1.counter = 0 + 3) :=
  ⟨by decide, newFile_counter_progression "d" "20250101" 0 (by decide)⟩

/-- C3 counterexample: on a rotator freshly constructed with "app.log" in
directory "d" on 20250101, the very first rotate() closes the initial file
numbered 0001 and opens the file numbered 0002 — the first rotation's trailing
sequence number is 2, not 1 as the claim states. -/
theorem first_rotation_seq_counterexample :
    firstRotationEvents
      = [Effect.closeFile "d/20250101/app_20250101_0001.log",
         Effect.openFile "d/20250101/app_20250101_0002.log"]
    ∧ "d/20250101/app_20250101_0002.log" ≠ "d/20250101/app_20250101_0001.log" := by
  constructor
  · rfl
  · decide

/-- C9 counterexample: passing the explicit level 5 to WithCompress with the
zstd compression type produces a zstd compressor constructed with
gozstd.DefaultCompressionLevel (3), not with the supplied 5. -/
theorem withCompress_zstd_ignores_level :
    zstdLevel5Result = Except.ok (some { algo := CompressTypeZstd, level := 3 })
    ∧ (3 : Int) ≠ 5 := ⟨rfl, by decide⟩

/-- C9 amended: a compression level explicitly supplied to WithCompress is
honored for gzip (for any level gzip.NewWriterLevel accepts), but with the
zstd type the supplied level is ignored and the compressor is always
constructed with gozstd.DefaultCompressionLevel; the zstd level is
configurable only by calling NewZstd directly, not through WithCompress. -/
theorem withCompress_level_handling (r : Rotator) (lvl : Int) (rest : List Int)
    (hlo : gzipHuffmanOnly ≤ lvl) (hhi : lvl ≤ gzipBestCompression) :
    (∃ rz, WithCompress CompressTypeZstd (lvl :: rest) r = Except.ok rz
        ∧ rz.cprCs = some { algo := CompressTypeZstd, level := gozstdDefaultCompressionLevel }
        ∧ rz.cprCompress = true ∧ rz.cprType = CompressTypeZstd)
    ∧ (∃ rg, WithCompress CompressTypeGzip (lvl :: rest) r = Except.ok rg
        ∧ rg.cprCs = some { algo := CompressTypeGzip, level := lvl }
        ∧ rg.cprCompress = true ∧ rg.cprType = CompressTypeGzip) := by
  have hcond : ¬(lvl < gzipHuffmanOnly ∨ gzipBestCompression < lvl) := by
    push_neg
    exact ⟨hlo, hhi⟩
  constructor
  · exact ⟨{ r with
              cprCompress := true,
              cprType := CompressTypeZstd,
              cprCs := some { algo := CompressTypeZstd,
                              level := gozstdDefaultCompressionLevel } },
      rfl, rfl, rfl, rfl⟩
  · refine ⟨{ r with
              cprCompress := true,
              cprType := CompressTypeGzip,
              cprCs := some { algo := CompressTypeGzip, level := lvl } },
      ?_, rfl, rfl, rfl⟩
    simp [WithCompress, hcond, CompressTypeGzip, CompressTypeSnappy]

/-- Witness for C9 amended: explicit level 5 (accepted by gzip). -/
theorem withCompress_level_handling_witness :
    (∃ rz, WithCompress CompressTypeZstd (5 :: []) rEx = Except.ok rz
        ∧ rz.cprCs = some { algo := CompressTypeZstd, level := gozstdDefaultCompressionLevel }
        ∧ rz.cprCompress = true ∧ rz.cprType = CompressTypeZstd)
    ∧ (∃ rg, WithCompress CompressTypeGzip (5 :: []) rEx = Except.ok rg
        ∧ rg.cprCs = some { algo := CompressTypeGzip, level := 5 }
        ∧ rg.cprCompress = true ∧ rg.cprType = CompressTypeGzip) :=
  withCompress_level_handling rEx 5 [] (by decide) (by decide)

end RotatorLemmas

end VortexRotate
